import Mathlib

/-!
Verification of the quest execution pipeline of `packages/quest-system`.

The development shallowly embeds the pipeline's core:
  * `LevelCoordinator.coordinate` (state machine over the four pyramid levels),
  * `GeminiDispatcher.dispatchOperational` / `dispatchAtomic`,
  * `SemanticCacheService.get` / `set` (cosine-similarity cache over sqlite),
  * `KnowledgeBaseService.addKnowledge`,
  * `LearningEngineService.getLogsByQuestId`,
  * `QuestManager.executeQuest`.

Host-language capabilities that are not repository code (the generative model
client, `JSON.stringify` / `JSON.parse`, uuid generation, wall-clock reads,
sha256 hashing) are passed in as explicit function parameters.  sqlite calls
are modelled by their documented semantics: positional parameters that a call
does not supply are bound to NULL, `INSERT OR REPLACE` upserts by primary key
(the replacing row receives a fresh rowid, hence appears last in a subsequent
full-table scan), `NOT NULL` columns reject NULL bindings, and SQL `=` against
NULL matches no row.
-/

namespace QuestSystem

/-- The `QuestState` enum of `LevelCoordinator.ts`. -/
inductive QuestState where
  | strategic
  | tactical
  | operational
  | atomic
  | done
deriving DecidableEq, Repr

/-- `OperationalTask` from `shared/types.ts`. -/
structure OperationalTask where
  task : String
  suggestedTool : String
deriving DecidableEq, Repr

/-- The two values the optional `nextState` field of an `AtomicResult` may
carry (`shared/types.ts`). -/
inductive NextState where
  | operational
  | done
deriving DecidableEq, Repr

/-- `AtomicResult` from `shared/types.ts`; `nextState` is optional there, so it
is an `Option` here (`none` models an absent field). -/
structure AtomicResult where
  task : OperationalTask
  outcome : String
  nextState : Option NextState
deriving DecidableEq, Repr

/-- The `status` field of an execution-log row: `'success' | 'failure'`. -/
inductive LogStatus where
  | success
  | failure
deriving DecidableEq, Repr

/-- The execution-log row built by `LevelCoordinator.coordinate` (the
`Omit<ExecutionLog, 'id' | 'timestamp'>` object handed to `logExecution`).
The `level` field is a plain string because the source computes it as
`QuestState[this.currentState].toLowerCase()`, which can produce `"done"`,
a value outside the declared `ExecutionLog['level']` union (the source casts
it away). -/
structure LogEntry where
  questId : String
  level : String
  input : String
  output : String
  durationMs : Int
  status : LogStatus
  error : Option String
deriving DecidableEq, Repr

/-- `QuestState[s].toLowerCase()`: the enum member name, lowercased. -/
def stateName : QuestState → String
  | .strategic => "strategic"
  | .tactical => "tactical"
  | .operational => "operational"
  | .atomic => "atomic"
  | .done => "done"

/-- The `TaskPyramid` instance as the coordinator sees it: one call per level,
each either resolving with its artifact or rejecting with an error message.
`questId` is `taskPyramid.quest.id`. -/
structure TaskPyramid where
  questId : String
  executeStrategicLevel : Except String String
  executeTacticalLevel : String → Except String String
  executeOperationalLevel : String → Except String (List OperationalTask)
  executeAtomicLevel : List OperationalTask → Except String (List AtomicResult)

/-- The mutable locals of one `coordinate` run: `currentState` plus the four
intermediate variables (`undefined` is `none`). -/
structure CoordState where
  currentState : QuestState
  strategicPlan : Option String
  tacticalPlan : Option String
  operationalTasks : Option (List OperationalTask)
  atomicResults : Option (List AtomicResult)

/-- `LevelCoordinator.getLogInput`.  `strategicPlan || ''` maps a missing (or
empty) plan to `''`, which `Option.getD ""` reproduces; the ATOMIC case is
`JSON.stringify(operationalTasks || [])`, with `JSON.stringify` abstracted as
the `stringifyTasks` parameter. -/
def getLogInput (stringifyTasks : List OperationalTask → String)
    (state : QuestState) (strategicPlan tacticalPlan : Option String)
    (operationalTasks : Option (List OperationalTask)) : String :=
  match state with
  | .strategic => "Initial quest description"
  | .tactical => strategicPlan.getD ""
  | .operational => tacticalPlan.getD ""
  | .atomic => stringifyTasks (operationalTasks.getD [])
  | .done => ""

/-- One iteration of the `while` loop of `LevelCoordinator.coordinate`:
the `try`/`switch` body (including the `catch` that routes any rejection to
`DONE`) followed by the `finally` block that builds the single log row from
the post-transition `this.currentState` and the updated intermediates.
`stringifyTasks` / `stringifyResults` stand for `JSON.stringify`, and
`durationMs` for the wall-clock measurement.  The non-null assertions
`strategicPlan!` / `tacticalPlan!` / `operationalTasks!` are modelled with
`Option.getD` defaults; those branches are only reachable with the variable
set.  Returns the updated locals together with the log row written by the
iteration. -/
def coordStep (stringifyTasks : List OperationalTask → String)
    (stringifyResults : List AtomicResult → String)
    (P : TaskPyramid) (durationMs : Int) (s : CoordState) :
    CoordState × LogEntry :=
  let res : CoordState × LogStatus × Option String × String :=
    match s.currentState with
    | .strategic =>
      match P.executeStrategicLevel with
      | .ok plan =>
          ({ s with strategicPlan := some plan, currentState := .tactical },
            .success, none, plan)
      | .error e =>
          ({ s with currentState := .done }, .failure, some e, "Error: " ++ e)
    | .tactical =>
      match P.executeTacticalLevel (s.strategicPlan.getD "") with
      | .ok plan =>
          ({ s with tacticalPlan := some plan, currentState := .operational },
            .success, none, plan)
      | .error e =>
          ({ s with currentState := .done }, .failure, some e, "Error: " ++ e)
    | .operational =>
      match P.executeOperationalLevel (s.tacticalPlan.getD "") with
      | .ok tasks =>
          ({ s with operationalTasks := some tasks, currentState := .atomic },
            .success, none, stringifyTasks tasks)
      | .error e =>
          ({ s with currentState := .done }, .failure, some e, "Error: " ++ e)
    | .atomic =>
      match P.executeAtomicLevel (s.operationalTasks.getD []) with
      | .ok results =>
        let next : QuestState :=
          match results.getLast? with
          | some lastResult =>
            match lastResult.nextState with
            | some .done => .done
            | some .operational => .operational
            | none => .done
          | none => .done
        ({ s with atomicResults := some results, currentState := next },
          .success, none, stringifyResults results)
      | .error e =>
          ({ s with currentState := .done }, .failure, some e, "Error: " ++ e)
    | .done =>
      ({ s with currentState := .done }, .success, none, "")
  let s' := res.1
  let log : LogEntry :=
    { questId := P.questId
      level := stateName s'.currentState
      input := getLogInput stringifyTasks s'.currentState s'.strategicPlan
        s'.tacticalPlan s'.operationalTasks
      output := res.2.2.2
      durationMs := durationMs
      status := res.2.1
      error := res.2.2.1 }
  (s', log)

/-- The `while (this.currentState !== QuestState.DONE)` loop, with a fuel
bound (the source loop need not terminate: ATOMIC can keep looping back to
OPERATIONAL).  Returns the final locals and the log rows written, one per
executed iteration, in order. -/
def coordinate (stringifyTasks : List OperationalTask → String)
    (stringifyResults : List AtomicResult → String)
    (P : TaskPyramid) (durationMs : Int) :
    Nat → CoordState → CoordState × List LogEntry
  | 0, s => (s, [])
  | fuel + 1, s =>
    if s.currentState = .done then (s, [])
    else
      let step := coordStep stringifyTasks stringifyResults P durationMs s
      let rest := coordinate stringifyTasks stringifyResults P durationMs fuel step.1
      (rest.1, step.2 :: rest.2)

/-- The locals at entry of `coordinate`: initial state STRATEGIC, all
intermediates `undefined`. -/
def initialCoordState : CoordState :=
  { currentState := .strategic
    strategicPlan := none
    tacticalPlan := none
    operationalTasks := none
    atomicResults := none }

/-- A pyramid every call of which rejects: the injected-failure environment. -/
def failingPyramid : TaskPyramid :=
  { questId := "q1"
    executeStrategicLevel := .error "injected failure"
    executeTacticalLevel := fun _ => .error "injected failure"
    executeOperationalLevel := fun _ => .error "injected failure"
    executeAtomicLevel := fun _ => .error "injected failure" }

/-- A pyramid whose strategic call resolves with the plan "PLAN" (and whose
later levels also resolve), used to evaluate single iterations concretely. -/
def okPyramid : TaskPyramid :=
  { questId := "q1"
    executeStrategicLevel := .ok "PLAN"
    executeTacticalLevel := fun _ => .ok "TPLAN"
    executeOperationalLevel := fun _ => .ok []
    executeAtomicLevel := fun _ => .ok [] }

/-- A concrete stand-in for `JSON.stringify` on task lists, used when
evaluating the model on concrete inputs. -/
def stringifyTasks0 : List OperationalTask → String := fun _ => "[]"

/-- A concrete stand-in for `JSON.stringify` on atomic-result lists. -/
def stringifyResults0 : List AtomicResult → String := fun _ => "[]"

/-- The `GeminiDispatcher.dispatchOperational` body after the `sendMessage`
round trip delivered `response`: `JSON.parse` plus the unchecked cast to
`OperationalTask[]` is abstracted as the `parse` parameter (a host-language
capability; `.error` models a thrown parse failure).  The `try`/`catch`
substitutes `[]` for a parse failure, so the call always produces a list and
never rethrows. -/
def dispatchOperational (parse : String → Except String (List OperationalTask))
    (response : String) : List OperationalTask :=
  match parse response with
  | .ok tasks => tasks
  | .error _ => []

/-- A parse capability that fails on every input, as `JSON.parse` does on
`"not a json string"`. -/
def parseAlwaysFails : String → Except String (List OperationalTask) :=
  fun _ => .error "Unexpected token"

/-- JS `haystack.includes(needle)` at the character level: scan every suffix
of the haystack and test whether the needle is a prefix of it. -/
def jsIncludes (needle : List Char) : List Char → Bool
  | [] => needle.isEmpty
  | c :: rest => needle.isPrefixOf (c :: rest) || jsIncludes needle rest

/-- JS `s.toLowerCase()`, at the character level. -/
def jsToLower (s : String) : List Char := s.toList.map Char.toLower

/-- The `GeminiDispatcher.dispatchAtomic` body after the `sendMessage` round
trip delivered `outcome`: the produced `AtomicResult` carries
`nextState = 'done'` when `outcome.toLowerCase().includes('success')` holds
and `'operational'` otherwise. -/
def dispatchAtomic (task : OperationalTask) (outcome : String) : AtomicResult :=
  { task := task
    outcome := outcome
    nextState :=
      if jsIncludes "success".toList (jsToLower outcome) then some .done
      else some .operational }

/-- One row of the `semantic_cache` table.  Timestamps are milliseconds since
the epoch (the source stores an ISO string and reads it back through
`new Date(row.timestamp).getTime()`); the JSON-serialized vector column is
kept as the vector itself (`JSON.parse` of `JSON.stringify` is the
identity on number arrays). -/
structure CacheRow where
  queryHash : String
  semanticVector : Option (List ℝ)
  response : String
  timestamp : Int
  ttl : Option Int

/-- `vec.reduce((sum, val) => sum + val * val, 0)`. -/
def sumSqFold (v : List ℝ) : ℝ := v.foldl (fun s a => s + a * a) 0

/-- `Math.sqrt` of the summed squares of a vector. -/
noncomputable def magnitude (v : List ℝ) : ℝ := Real.sqrt (sumSqFold v)

/-- `vec1.reduce((sum, val, i) => sum + val * vec2[i], 0)`: the pointwise dot
product (embeddings from one model share a dimension, so the index access
`vec2[i]` is modelled by `zipWith`). -/
def dotProduct (v1 v2 : List ℝ) : ℝ :=
  (List.zipWith (fun a b => a * b) v1 v2).foldl (· + ·) 0

/-- `SemanticCacheService.cosineSimilarity`: 0 when either magnitude is 0,
else the dot product over the product of magnitudes. -/
noncomputable def cosineSimilarity (v1 v2 : List ℝ) : ℝ :=
  if magnitude v1 = 0 ∨ magnitude v2 = 0 then 0
  else dotProduct v1 v2 / (magnitude v1 * magnitude v2)

/-- The JS truthiness guard `row.ttl && now - entryTime > row.ttl`: a NULL or
zero `ttl` is falsy, so such a row never counts as expired. -/
def rowExpired (now : Int) (row : CacheRow) : Bool :=
  match row.ttl with
  | some t => !(t == 0) && decide (now - row.timestamp > t)
  | none => false

/-- The scan loop of `SemanticCacheService.get`: walk all rows; skip any
expired row from matching; for each live row with a stored vector compare its
cosine similarity against the running `highestSimilarity` (initially the
caller's threshold) and keep the strictly better response.  The expired
branch issues `DELETE FROM semantic_cache WHERE queryHash = ?` bound to
`row.queryHash`, but the SELECT feeding the loop fetches only
`response, timestamp, ttl, semanticVector`, so `row.queryHash` is undefined,
the parameter is bound NULL, and the statement deletes no row: every row
survives the read.  Returns the final `bestMatch` together with the rows
present after the scan. -/
noncomputable def cacheScan (e : List ℝ) (now : Int) :
    List CacheRow → Option String → ℝ → Option String × List CacheRow
  | [], best, _ => (best, [])
  | row :: rest, best, highest =>
    if rowExpired now row then
      let r := cacheScan e now rest best highest
      (r.1, row :: r.2)
    else
      match row.semanticVector with
      | some v =>
        let sim := cosineSimilarity e v
        if sim > highest then
          let r := cacheScan e now rest (some row.response) sim
          (r.1, row :: r.2)
        else
          let r := cacheScan e now rest best highest
          (r.1, row :: r.2)
      | none =>
        let r := cacheScan e now rest best highest
        (r.1, row :: r.2)

/-- `SemanticCacheService.get(query, similarityThreshold)` (the source
defaults the threshold to 0.8).  `embed` is the model client's
`embedContent` capability; when it returns nothing, no match is attempted and
the store is untouched.  Returns the best response (if any) together with the
store after the read (which the attempted eviction never changes, since the
DELETE binds an unfetched, hence NULL, queryHash). -/
noncomputable def cacheGet (embed : String → Option (List ℝ)) (now : Int)
    (query : String) (similarityThreshold : ℝ) (store : List CacheRow) :
    Option String × List CacheRow :=
  match embed query with
  | none => (none, store)
  | some e => cacheScan e now store none similarityThreshold

/-- `SemanticCacheService.set(query, response, _ttl)`.  `hash` stands for the
sha256 content hash.  The `INSERT OR REPLACE` statement has five placeholders
but the call binds only four values (hash, vector, response, timestamp), so
sqlite leaves the `ttl` column NULL whatever `_ttl` was; the upsert replaces
any row with the same hash, and the replacing row receives a fresh rowid,
hence appears last in a subsequent full-table scan (modelled as
filter-then-append). -/
def cacheSet (embed : String → Option (List ℝ)) (hash : String → String)
    (now : Int) (query response : String) (_ttl : Option Int)
    (store : List CacheRow) : List CacheRow :=
  let queryHash := hash query
  let row : CacheRow :=
    { queryHash := queryHash
      semanticVector := embed query
      response := response
      timestamp := now
      ttl := none }
  (store.filter fun r => !(r.queryHash == queryHash)) ++ [row]

/-- A concrete embedding capability: every query embeds to the vector `[1]`. -/
noncomputable def embedConst1 : String → Option (List ℝ) := fun _ => some [1]

/-- A concrete content hash stand-in (the identity; the claims here do not
depend on collision behavior). -/
def hashId : String → String := fun s => s

/-- A cache row with `ttl = 0` (which the JS truthiness guard treats as
unset) carrying the stored vector `[1]`. -/
noncomputable def rowTtlZeroVec : CacheRow :=
  { queryHash := "h"
    semanticVector := some [1]
    response := "r0"
    timestamp := 0
    ttl := some 0 }

/-- A cache row with ttl 1ms, exceeded at read time 5. -/
def rowTtlOne : CacheRow :=
  { queryHash := "h"
    semanticVector := none
    response := "r0"
    timestamp := 0
    ttl := some 1 }

/-- `KnowledgeItem` from `shared/types.ts` (tags kept structured). -/
structure KnowledgeItem where
  id : String
  content : String
  tags : Option (List String)
  source : Option String
  timestamp : String
deriving DecidableEq, Repr

/-- One stored row of the `knowledge_items` table: `content` and `timestamp`
are declared NOT NULL; `id` is the TEXT primary key (which sqlite, by quirk,
does not force NOT NULL, hence the `Option`); `tags` holds the serialized
TEXT. -/
structure KnowledgeRow where
  id : Option String
  content : String
  tags : Option String
  source : Option String
  timestamp : String
deriving DecidableEq, Repr

/-- The `INSERT INTO knowledge_items (id, content, tags, source, timestamp)`
statement applied to its five bound values (NULL = `none`): enforce the
NOT NULL constraints on `content` and `timestamp` and the uniqueness of the
primary key, else append the row. -/
def knowledgeInsert (vid vcontent vtags vsrc vtimestamp : Option String)
    (store : List KnowledgeRow) : Except String (List KnowledgeRow) :=
  match vcontent with
  | none => .error "NOT NULL constraint failed: knowledge_items.content"
  | some c =>
    match vtimestamp with
    | none => .error "NOT NULL constraint failed: knowledge_items.timestamp"
    | some ts =>
      if vid ≠ none ∧ store.any (fun r => r.id == vid) then
        .error "UNIQUE constraint failed: knowledge_items.id"
      else
        .ok (store ++
          [{ id := vid, content := c, tags := vtags, source := vsrc,
             timestamp := ts }])

/-- `KnowledgeBaseService.addKnowledge`.  `uuid` and `nowIso` stand for
`uuidv4()` and `new Date().toISOString()`, `stringifyTags` for
`JSON.stringify` on a tag list.  The source builds the full `newItem`, but
the `db.run` call supplies only three values (id, content, serialized tags)
for the five placeholders, leaving the `source` and `timestamp` columns
NULL; the promise resolves with `newItem` only when the insert succeeds and
rejects with the sqlite error otherwise. -/
def addKnowledge (uuid nowIso : String) (stringifyTags : List String → String)
    (content : String) (tags : Option (List String)) (src : Option String)
    (store : List KnowledgeRow) :
    Except String (KnowledgeItem × List KnowledgeRow) :=
  let newItem : KnowledgeItem :=
    { id := uuid, content := content, tags := tags, source := src,
      timestamp := nowIso }
  match knowledgeInsert (some newItem.id) (some newItem.content)
      (newItem.tags.map stringifyTags) none none store with
  | .error e => .error e
  | .ok store2 => .ok (newItem, store2)

/-- A stored `execution_logs` row (the `DbExecutionLog` shape): `toolCalls`
is the raw serialized TEXT column. -/
structure ExecLogRow where
  id : String
  questId : String
  level : String
  input : String
  output : String
  durationMs : Int
  status : String
  timestamp : String
  toolCalls : Option String
  error : Option String
deriving DecidableEq, Repr

/-- SQL `=` between two nullable TEXT operands: NULL on either side makes the
comparison non-true, so a WHERE clause drops the row. -/
def sqlTextEq (a b : Option String) : Bool :=
  match a, b with
  | some x, some y => x == y
  | _, _ => false

/-- `LearningEngineService.getLogsByQuestId(questId)`: the source call
`db.all('SELECT * FROM execution_logs WHERE questId = ?', callback)` supplies
no binding for the single placeholder, which sqlite therefore leaves NULL,
and the `_questId` argument is unused (it is so named in the source).  A row
is kept exactly when `questId = NULL` evaluates to true. -/
def getLogsByQuestId (_questId : String) (store : List ExecLogRow) :
    List ExecLogRow :=
  store.filter fun row => sqlTextEq (some row.questId) none

/-- A concrete stored execution-log row for quest `q1`. -/
def execLogRow0 : ExecLogRow :=
  { id := "log1"
    questId := "q1"
    level := "strategic"
    input := "Initial quest description"
    output := "PLAN"
    durationMs := 3
    status := "success"
    timestamp := "t1"
    toolCalls := none
    error := none }

/-- `QuestConfig` from `shared/types.ts`. -/
structure QuestConfig where
  title : String
  description : String
deriving DecidableEq, Repr

/-- The quest `status` union. -/
inductive QuestStatus where
  | pending
  | executing
  | completed
  | failed
deriving DecidableEq, Repr

/-- `Quest` from `shared/types.ts` (`currentLevel` kept as its literal
string). -/
structure Quest where
  id : String
  config : QuestConfig
  status : QuestStatus
  currentLevel : String
  createdAt : String
  updatedAt : String
  error : Option String
deriving DecidableEq, Repr

/-- `QuestRepository.findById` over the persisted quest list. -/
def findById (store : List Quest) (id : String) : Option Quest :=
  store.find? fun q => q.id == id

/-- `QuestManager.executeQuest`: look the quest up (absent → the rejected
`"Quest not found"`), build a pyramid for it and run a fresh coordinator.
The method resolves with whatever `coordinate` resolves with (the final
`atomicResults`, possibly `undefined`); it performs no `repository.save`, so
the quest store is returned unchanged.  The execution-log rows the run hands
to `logExecution` are returned alongside. -/
def executeQuest (stringifyTasks : List OperationalTask → String)
    (stringifyResults : List AtomicResult → String)
    (pyramidOf : Quest → TaskPyramid) (fuel : Nat) (durationMs : Int)
    (quests : List Quest) (questId : String) :
    Except String (Option (List AtomicResult)) × List Quest × List LogEntry :=
  match findById quests questId with
  | none => (.error "Quest not found", quests, [])
  | some quest =>
    let run := coordinate stringifyTasks stringifyResults (pyramidOf quest)
      durationMs fuel initialCoordState
    (.ok run.1.atomicResults, quests, run.2)

/-- A concrete pending quest. -/
def quest0 : Quest :=
  { id := "q1"
    config := { title := "T", description := "D" }
    status := .pending
    currentLevel := "none"
    createdAt := "t0"
    updatedAt := "t0"
    error := none }

/-- Helper: the suffix-scanning search `jsIncludes` decides exactly the
list-infix relation. -/
theorem jsIncludes_iff (n h : List Char) : jsIncludes n h = true ↔ n <:+: h := by
  induction h with
  | nil =>
    cases n <;> simp [jsIncludes, List.infix_nil]
  | cons c rest ih =>
    simp [jsIncludes, Bool.or_eq_true, List.isPrefixOf_iff_prefix, ih,
      List.infix_cons_iff]

/-- Claim C6: for every tactical-plan dispatch whose model response fails to
parse as JSON, `dispatchOperational` returns the empty task list (the parse
failure is absorbed, never rethrown), and a successfully parsed response is
returned as the task list. -/
theorem dispatchOperational_parse (parse : String → Except String (List OperationalTask))
    (response : String) :
    (∀ e, parse response = .error e → dispatchOperational parse response = [])
  ∧ (∀ tasks, parse response = .ok tasks →
      dispatchOperational parse response = tasks) := by
  constructor
  · intro e he
    simp [dispatchOperational, he]
  · intro tasks ht
    simp [dispatchOperational, ht]

/-- Witness for C6: a response that fails to parse yields the empty task
list. -/
theorem dispatchOperational_parse_witness :
    dispatchOperational parseAlwaysFails "not a json string" = [] :=
  (dispatchOperational_parse parseAlwaysFails "not a json string").1
    "Unexpected token" rfl

/-- Claim C7: the `AtomicResult` produced by `dispatchAtomic` carries
`nextState = 'done'` exactly when the lowercased outcome contains the
substring "success", and `nextState = 'operational'` exactly otherwise. -/
theorem dispatchAtomic_nextState (task : OperationalTask) (outcome : String) :
    ((dispatchAtomic task outcome).nextState = some NextState.done ↔
      "success".toList <:+: jsToLower outcome)
  ∧ ((dispatchAtomic task outcome).nextState = some NextState.operational ↔
      ¬ "success".toList <:+: jsToLower outcome) := by
  cases hb : jsIncludes "success".toList (jsToLower outcome) <;>
    simp [dispatchAtomic, hb, ← jsIncludes_iff]

/-- Witness for C7: a concrete mixed-case outcome containing "SUCCESS" is
classified as `'done'`. -/
theorem dispatchAtomic_nextState_witness :
    (dispatchAtomic { task := "t", suggestedTool := "writeFile" }
      "Great SUCCESS").nextState = some NextState.done :=
  (dispatchAtomic_nextState { task := "t", suggestedTool := "writeFile" }
    "Great SUCCESS").1.mpr (by decide)

/-- Claim C9 (code evaluation): `getLogsByQuestId` returns the empty list for
every quest id and every store, because its SQL parameter is never bound;
in particular it misses a stored row whose `questId` is exactly the id that
was asked for. -/
theorem getLogsByQuestId_returns_nothing :
    (∀ q store, getLogsByQuestId q store = [])
  ∧ getLogsByQuestId "q1" [execLogRow0] = []
  ∧ execLogRow0.questId = "q1" := by
  refine ⟨?_, ?_, rfl⟩
  · intro q store
    simp [getLogsByQuestId, sqlTextEq]
  · simp [getLogsByQuestId, sqlTextEq]

/-- Claim C8 (code evaluation): every `addKnowledge` call rejects, because
the insert leaves the NOT NULL `timestamp` column unbound; nothing is ever
persisted through this path. -/
theorem addKnowledge_always_rejects :
    ∀ uuid nowIso stringifyTags content tags src store,
      addKnowledge uuid nowIso stringifyTags content tags src store =
        .error "NOT NULL constraint failed: knowledge_items.timestamp" := by
  intro uuid nowIso stringifyTags content tags src store
  simp [addKnowledge, knowledgeInsert]

/-- Claim C1: the coordinator's state only ever changes according to the
transition table — STRATEGIC→TACTICAL, TACTICAL→OPERATIONAL and
OPERATIONAL→ATOMIC unconditionally on a successful call; from ATOMIC the
state moves to OPERATIONAL exactly when the last `AtomicResult` of a
non-empty batch carries `nextState = 'operational'` and to DONE otherwise
(last result `'done'`, anything else, or an empty batch); a rejected pyramid
call from any state is caught and moves the state to DONE; DONE is absorbing;
and DONE is reachable from every state via an injected failure. -/
theorem coordStep_transition_table (stT : List OperationalTask → String)
    (stR : List AtomicResult → String) (P : TaskPyramid) (d : Int)
    (s : CoordState) :
    (s.currentState = .strategic → ∀ plan, P.executeStrategicLevel = .ok plan →
        (coordStep stT stR P d s).1.currentState = .tactical)
  ∧ (s.currentState = .tactical → ∀ plan,
        P.executeTacticalLevel (s.strategicPlan.getD "") = .ok plan →
        (coordStep stT stR P d s).1.currentState = .operational)
  ∧ (s.currentState = .operational → ∀ tasks,
        P.executeOperationalLevel (s.tacticalPlan.getD "") = .ok tasks →
        (coordStep stT stR P d s).1.currentState = .atomic)
  ∧ (s.currentState = .atomic → ∀ results,
        P.executeAtomicLevel (s.operationalTasks.getD []) = .ok results →
        (((coordStep stT stR P d s).1.currentState = .operational ↔
            ∃ lastR, results.getLast? = some lastR ∧
              lastR.nextState = some .operational)
          ∧ ((coordStep stT stR P d s).1.currentState = .done ↔
            ¬ ∃ lastR, results.getLast? = some lastR ∧
              lastR.nextState = some .operational)))
  ∧ (∀ msg,
        (s.currentState = .strategic ∧ P.executeStrategicLevel = .error msg) ∨
        (s.currentState = .tactical ∧
          P.executeTacticalLevel (s.strategicPlan.getD "") = .error msg) ∨
        (s.currentState = .operational ∧
          P.executeOperationalLevel (s.tacticalPlan.getD "") = .error msg) ∨
        (s.currentState = .atomic ∧
          P.executeAtomicLevel (s.operationalTasks.getD []) = .error msg) →
        (coordStep stT stR P d s).1.currentState = .done)
  ∧ (s.currentState = .done → (coordStep stT stR P d s).1.currentState = .done)
  ∧ (∃ Q : TaskPyramid, (coordStep stT stR Q d s).1.currentState = .done) := by
  refine ⟨?_, ?_, ?_, ?_, ?_, ?_, ?_⟩
  · intro h plan hp
    simp [coordStep, h, hp]
  · intro h plan hp
    simp [coordStep, h, hp]
  · intro h tasks hp
    simp [coordStep, h, hp]
  · intro h results hp
    cases hL : results.getLast? with
    | none => simp [coordStep, h, hp, hL]
    | some lastR =>
      cases hN : lastR.nextState with
      | none => simp [coordStep, h, hp, hL, hN]
      | some nxt =>
        cases nxt <;> simp [coordStep, h, hp, hL, hN]
  · intro msg hdisj
    rcases hdisj with ⟨h, hp⟩ | ⟨h, hp⟩ | ⟨h, hp⟩ | ⟨h, hp⟩ <;>
      simp [coordStep, h, hp]
  · intro h
    simp [coordStep, h]
  · refine ⟨failingPyramid, ?_⟩
    cases hs : s.currentState <;> simp [coordStep, hs, failingPyramid]

/-- Witness for C1: from the initial state a successful strategic call moves
to TACTICAL, and an injected failure moves to DONE. -/
theorem coordStep_transition_table_witness :
    (coordStep stringifyTasks0 stringifyResults0 okPyramid 0
      initialCoordState).1.currentState = .tactical
  ∧ (coordStep stringifyTasks0 stringifyResults0 failingPyramid 0
      initialCoordState).1.currentState = .done := by
  constructor
  · exact (coordStep_transition_table stringifyTasks0 stringifyResults0
      okPyramid 0 initialCoordState).1 rfl "PLAN" rfl
  · exact (coordStep_transition_table stringifyTasks0 stringifyResults0
      failingPyramid 0 initialCoordState).2.2.2.2.1 "injected failure"
      (Or.inl ⟨rfl, rfl⟩)

/-- Counterexample to claim C2 as stated: in the iteration that runs the
STRATEGIC level, the log row written is attributed to level "tactical" (the
post-transition state), not "strategic", and its `input` field holds the
strategic plan that was just produced, not the initial quest description. -/
theorem coordStep_log_attribution_counterexample :
    (coordStep stringifyTasks0 stringifyResults0 okPyramid 0
      initialCoordState).2.level = "tactical"
  ∧ (coordStep stringifyTasks0 stringifyResults0 okPyramid 0
      initialCoordState).2.level ≠ "strategic"
  ∧ (coordStep stringifyTasks0 stringifyResults0 okPyramid 0
      initialCoordState).2.input = "PLAN"
  ∧ (coordStep stringifyTasks0 stringifyResults0 okPyramid 0
      initialCoordState).2.input ≠ "Initial quest description" := by
  decide

/-- Claim C2 as amended: every iteration writes exactly one log row on both
the success and the failure path (`coordStep` produces exactly one row and
`coordinate` conses one per executed iteration), but the row is attributed to
the post-transition state: its `level` is the name of the state after the
transition, its `input` is the input available to that next state (the
updated strategic plan when the next state is TACTICAL, the tactical plan
when OPERATIONAL, the serialized task list when ATOMIC, the empty string when
DONE), and its `output` holds the attempted level's output on success — the
produced plan string for STRATEGIC/TACTICAL, the serialized task list for
OPERATIONAL, the serialized result batch for ATOMIC — or `"Error: "` plus
the message on failure. -/
theorem coordStep_log_row (stT : List OperationalTask → String)
    (stR : List AtomicResult → String) (P : TaskPyramid) (d : Int)
    (s : CoordState) :
    ((coordStep stT stR P d s).2.level =
        stateName (coordStep stT stR P d s).1.currentState)
  ∧ ((coordStep stT stR P d s).1.currentState = .tactical →
      (coordStep stT stR P d s).2.input =
        ((coordStep stT stR P d s).1.strategicPlan).getD "")
  ∧ ((coordStep stT stR P d s).1.currentState = .operational →
      (coordStep stT stR P d s).2.input =
        ((coordStep stT stR P d s).1.tacticalPlan).getD "")
  ∧ ((coordStep stT stR P d s).1.currentState = .atomic →
      (coordStep stT stR P d s).2.input =
        stT (((coordStep stT stR P d s).1.operationalTasks).getD []))
  ∧ ((coordStep stT stR P d s).1.currentState = .done →
      (coordStep stT stR P d s).2.input = "")
  ∧ (∀ msg, (coordStep stT stR P d s).2.error = some msg →
      (coordStep stT stR P d s).2.status = .failure ∧
      (coordStep stT stR P d s).2.output = "Error: " ++ msg)
  ∧ ((coordStep stT stR P d s).2.status = .success →
      (coordStep stT stR P d s).2.error = none)
  ∧ (s.currentState = .strategic → ∀ plan,
      P.executeStrategicLevel = .ok plan →
      (coordStep stT stR P d s).2.status = .success ∧
      (coordStep stT stR P d s).2.output = plan)
  ∧ (s.currentState = .tactical → ∀ plan,
      P.executeTacticalLevel (s.strategicPlan.getD "") = .ok plan →
      (coordStep stT stR P d s).2.status = .success ∧
      (coordStep stT stR P d s).2.output = plan)
  ∧ (s.currentState = .operational → ∀ tasks,
      P.executeOperationalLevel (s.tacticalPlan.getD "") = .ok tasks →
      (coordStep stT stR P d s).2.status = .success ∧
      (coordStep stT stR P d s).2.output = stT tasks)
  ∧ (s.currentState = .atomic → ∀ results,
      P.executeAtomicLevel (s.operationalTasks.getD []) = .ok results →
      (coordStep stT stR P d s).2.status = .success ∧
      (coordStep stT stR P d s).2.output = stR results)
  ∧ (∀ fuel, s.currentState ≠ .done →
      (coordinate stT stR P d (fuel + 1) s).2.length =
        (coordinate stT stR P d fuel (coordStep stT stR P d s).1).2.length
          + 1) := by
  cases hs : s.currentState
  case strategic =>
    cases hp : P.executeStrategicLevel <;>
      simp [coordStep, coordinate, hs, hp, stateName, getLogInput]
  case tactical =>
    cases hp : P.executeTacticalLevel (s.strategicPlan.getD "") <;>
      simp [coordStep, coordinate, hs, hp, stateName, getLogInput]
  case operational =>
    cases hp : P.executeOperationalLevel (s.tacticalPlan.getD "") <;>
      simp [coordStep, coordinate, hs, hp, stateName, getLogInput]
  case atomic =>
    cases hp : P.executeAtomicLevel (s.operationalTasks.getD []) with
    | error e => simp [coordStep, coordinate, hs, hp, stateName, getLogInput]
    | ok results =>
      cases hL : results.getLast? with
      | none => simp [coordStep, coordinate, hs, hp, hL, stateName, getLogInput]
      | some lastR =>
        cases hN : lastR.nextState with
        | none =>
          simp [coordStep, coordinate, hs, hp, hL, hN, stateName, getLogInput]
        | some nxt =>
          cases nxt <;>
            simp [coordStep, coordinate, hs, hp, hL, hN, stateName, getLogInput]
  case done =>
    simp [coordStep, coordinate, hs, stateName, getLogInput]

/-- Witness for the amended C2: in the concrete strategic iteration the row's
input is the post-transition state's input (the freshly produced strategic
plan) and its output is the successful level's output (the plan itself),
while a failing iteration records a failure row with the error string. -/
theorem coordStep_log_row_witness :
    (coordStep stringifyTasks0 stringifyResults0 okPyramid 0
        initialCoordState).2.input =
      ((coordStep stringifyTasks0 stringifyResults0 okPyramid 0
        initialCoordState).1.strategicPlan).getD ""
  ∧ (coordStep stringifyTasks0 stringifyResults0 okPyramid 0
        initialCoordState).2.output = "PLAN"
  ∧ (coordStep stringifyTasks0 stringifyResults0 failingPyramid 0
        initialCoordState).2.status = .failure
  ∧ (coordStep stringifyTasks0 stringifyResults0 failingPyramid 0
        initialCoordState).2.output = "Error: " ++ "injected failure" := by
  refine ⟨?_, ?_, ?_, ?_⟩
  · exact (coordStep_log_row stringifyTasks0 stringifyResults0 okPyramid 0
      initialCoordState).2.1 (by decide)
  · exact ((coordStep_log_row stringifyTasks0 stringifyResults0 okPyramid 0
      initialCoordState).2.2.2.2.2.2.2.1 rfl "PLAN" rfl).2
  · exact ((coordStep_log_row stringifyTasks0 stringifyResults0 failingPyramid
      0 initialCoordState).2.2.2.2.2.1 "injected failure" (by decide)).1
  · exact ((coordStep_log_row stringifyTasks0 stringifyResults0 failingPyramid
      0 initialCoordState).2.2.2.2.2.1 "injected failure" (by decide)).2

/-- Claim C3 (code evaluation): running a quest whose strategic call rejects
leaves the persisted quest record untouched — after `executeQuest` the store
still holds the quest with `status = 'pending'` and no `error` field, even
though the run recorded a failure log row; `QuestManager` never translates
the coordinator failure into `status = 'failed'`. -/
theorem executeQuest_failure_leaves_quest_pending :
    (∃ log ∈ (executeQuest stringifyTasks0 stringifyResults0
        (fun _ => failingPyramid) 10 0 [quest0] "q1").2.2,
      log.status = .failure)
  ∧ (executeQuest stringifyTasks0 stringifyResults0 (fun _ => failingPyramid)
      10 0 [quest0] "q1").2.1 = [quest0]
  ∧ findById (executeQuest stringifyTasks0 stringifyResults0
      (fun _ => failingPyramid) 10 0 [quest0] "q1").2.1 "q1" = some quest0
  ∧ quest0.status = .pending
  ∧ quest0.error = none := by
  decide

/-- Helper: folding `s + a * a` can only grow the accumulator. -/
theorem le_foldl_sq (v : List ℝ) : ∀ c : ℝ, c ≤ v.foldl (fun s a => s + a * a) c := by
  induction v with
  | nil => intro c; simp
  | cons a v ih =>
    intro c
    have h1 : c ≤ c + a * a := by nlinarith [mul_self_nonneg a]
    calc c ≤ c + a * a := h1
    _ ≤ v.foldl (fun s b => s + b * b) (c + a * a) := ih (c + a * a)
    _ = (a :: v).foldl (fun s b => s + b * b) c := by simp [List.foldl]

/-- Helper: the summed squares of a vector are nonnegative. -/
theorem sumSqFold_nonneg (v : List ℝ) : 0 ≤ sumSqFold v := le_foldl_sq v 0

/-- Helper: the dot product of a vector with itself is its summed squares. -/
theorem dotProduct_self (v : List ℝ) : dotProduct v v = sumSqFold v := by
  unfold dotProduct sumSqFold
  suffices h : ∀ c : ℝ, (List.zipWith (fun a b => a * b) v v).foldl (· + ·) c =
      v.foldl (fun s a => s + a * a) c from h 0
  induction v with
  | nil => intro c; simp
  | cons a v ih => intro c; simpa [List.foldl] using ih (c + a * a)

/-- Helper: self-similarity is exactly 1 for a vector of nonzero norm. -/
theorem cosineSimilarity_self (v : List ℝ) (h : sumSqFold v ≠ 0) :
    cosineSimilarity v v = 1 := by
  have hpos : 0 < sumSqFold v := lt_of_le_of_ne (sumSqFold_nonneg v) (Ne.symm h)
  have hmpos : 0 < magnitude v := Real.sqrt_pos.mpr hpos
  have hmm : magnitude v * magnitude v = sumSqFold v :=
    Real.mul_self_sqrt (le_of_lt hpos)
  unfold cosineSimilarity
  rw [if_neg (by push_neg; exact ⟨ne_of_gt hmpos, ne_of_gt hmpos⟩)]
  rw [dotProduct_self, hmm]
  exact div_self h

/-- Helper: a cache scan leaves the store unchanged — the attempted DELETE
of an expired row binds a NULL queryHash and removes nothing. -/
theorem cacheScan_snd (e : List ℝ) (now : Int) (store : List CacheRow) :
    ∀ (best : Option String) (highest : ℝ),
    (cacheScan e now store best highest).2 = store := by
  induction store with
  | nil => intro best highest; simp [cacheScan]
  | cons row rest ih =>
    intro best highest
    by_cases hexp : rowExpired now row = true
    · simp [cacheScan, hexp, ih]
    · have hlive : rowExpired now row = false := by
        simpa using hexp
      cases hv : row.semanticVector with
      | none => simp [cacheScan, hlive, hv, ih]
      | some v =>
        by_cases hsim : cosineSimilarity e v > highest <;>
          simp [cacheScan, hlive, hv, hsim, ih]

/-- Helper: the best-match side of a scan only depends on the non-expired
rows. -/
theorem cacheScan_fst_filter (e : List ℝ) (now : Int) (store : List CacheRow) :
    ∀ (best : Option String) (highest : ℝ),
    (cacheScan e now store best highest).1 =
      (cacheScan e now (store.filter (fun r => !rowExpired now r))
        best highest).1 := by
  induction store with
  | nil => intro best highest; simp
  | cons row rest ih =>
    intro best highest
    by_cases hexp : rowExpired now row = true
    · simp [cacheScan, hexp, ih]
    · have hlive : rowExpired now row = false := by
        simpa using hexp
      cases hv : row.semanticVector with
      | none => simp [cacheScan, hlive, hv, ih]
      | some v =>
        by_cases hsim : cosineSimilarity e v > highest <;>
          simp [cacheScan, hlive, hv, hsim, ih]

/-- Helper: scanning `rows ++ [rowQ]` where `rowQ` is live and carries the
query's own embedding returns `rowQ`'s response, provided the running maximum
stays strictly below the self-similarity 1 across the earlier rows. -/
theorem cacheScan_append_self (e : List ℝ) (now : Int) (rowQ : CacheRow)
    (hqLive : rowExpired now rowQ = false)
    (hqVec : rowQ.semanticVector = some e)
    (hself : cosineSimilarity e e = 1) :
    ∀ (rows : List CacheRow) (best : Option String) (highest : ℝ),
    highest < 1 →
    (∀ row ∈ rows, rowExpired now row = false → ∀ v,
        row.semanticVector = some v → cosineSimilarity e v < 1) →
    (cacheScan e now (rows ++ [rowQ]) best highest).1 = some rowQ.response := by
  intro rows
  induction rows with
  | nil =>
    intro best highest hh _
    simp [cacheScan, hqLive, hqVec, hself, hh]
  | cons row rest ih =>
    intro best highest hh hrows
    have hrest : ∀ r ∈ rest, rowExpired now r = false → ∀ v,
        r.semanticVector = some v → cosineSimilarity e v < 1 :=
      fun r hr => hrows r (List.mem_cons_of_mem row hr)
    by_cases hexp : rowExpired now row = true
    · simpa [cacheScan, hexp] using ih best highest hh hrest
    · have hlive : rowExpired now row = false := by
        simpa using hexp
      cases hv : row.semanticVector with
      | none => simpa [cacheScan, hlive, hv] using ih best highest hh hrest
      | some v =>
        have hsim : cosineSimilarity e v < 1 :=
          hrows row (List.mem_cons_self row rest) hlive v hv
        by_cases hgt : cosineSimilarity e v > highest
        · simpa [cacheScan, hlive, hv, hgt] using
            ih (some row.response) (cosineSimilarity e v) hsim hrest
        · simpa [cacheScan, hlive, hv, hgt] using ih best highest hh hrest

/-- Counterexample to claim C4 as stated: with threshold exactly 1.0 (which
is ≤ the self-similarity 1.0), an immediate `get(q)` after `set(q, r)` misses,
because a match must STRICTLY exceed the threshold. -/
theorem cacheRoundTrip_counterexample :
    (cacheGet embedConst1 0 "q" 1
      (cacheSet embedConst1 hashId 0 "q" "r" none [])).1 = none := by
  have hself : cosineSimilarity [(1 : ℝ)] [1] = 1 :=
    cosineSimilarity_self [1] (by norm_num [sumSqFold])
  simp [cacheGet, embedConst1, cacheSet, hashId, cacheScan, rowExpired, hself]

/-- Claim C4 as amended: if the embedding capability deterministically
returns a vector of nonzero norm for `q`, then `set(q, r)` followed
immediately by `get(q, t)` returns `r` for every threshold `t` strictly below
the self-similarity 1.0, provided no other live stored vector also attains
cosine similarity 1 with the query's embedding (such a row would be scanned
first and win the strictly-greater comparison). -/
theorem cacheRoundTrip (embed : String → Option (List ℝ))
    (hash : String → String) (now : Int) (q r : String) (ttlArg : Option Int)
    (t : ℝ) (store : List CacheRow) (e : List ℝ)
    (hemb : embed q = some e) (hnorm : sumSqFold e ≠ 0) (ht : t < 1)
    (hothers : ∀ row ∈ store, rowExpired now row = false → ∀ v,
        row.semanticVector = some v → cosineSimilarity e v < 1) :
    (cacheGet embed now q t (cacheSet embed hash now q r ttlArg store)).1 =
      some r := by
  have hself : cosineSimilarity e e = 1 := cosineSimilarity_self e hnorm
  have hq : cacheSet embed hash now q r ttlArg store =
      (store.filter fun x => !(x.queryHash == hash q)) ++
        [{ queryHash := hash q, semanticVector := embed q, response := r,
           timestamp := now, ttl := none }] := rfl
  unfold cacheGet
  rw [hemb, hq]
  exact cacheScan_append_self e now
    { queryHash := hash q, semanticVector := embed q, response := r,
      timestamp := now, ttl := none }
    rfl (by simpa using hemb) hself _ none t ht
    (fun row hrow => hothers row (List.mem_of_mem_filter hrow))

/-- Witness for the amended C4: a concrete round trip through an empty store
with threshold 0 returns the cached response. -/
theorem cacheRoundTrip_witness :
    (cacheGet embedConst1 0 "q" 0
      (cacheSet embedConst1 hashId 0 "q" "r" none [])).1 = some "r" :=
  cacheRoundTrip embedConst1 hashId 0 "q" "r" none 0 [] [1] rfl
    (by norm_num [sumSqFold]) (by norm_num) (by simp)

/-- Counterexample to claim C5 as stated: an entry with ttl 1, read at time 5
(well past expiry), is still in the store after the read — the attempted
DELETE binds an unfetched (NULL) queryHash and removes nothing; and an entry
whose ttl is set to 0, with `now - timestamp > 0`, is not even excluded from
matching, because JS truthiness treats a zero ttl as unset. -/
theorem cacheGet_ttl_expiry_counterexample :
    ((cacheGet embedConst1 5 "q" 0 [rowTtlOne]).2 = [rowTtlOne]
      ∧ rowTtlOne.ttl = some 1 ∧ (5 : Int) - rowTtlOne.timestamp > 1)
  ∧ ((cacheGet embedConst1 5 "q" 0 [rowTtlZeroVec]).1 = some "r0"
      ∧ rowTtlZeroVec.ttl = some 0
      ∧ (5 : Int) - rowTtlZeroVec.timestamp > 0) := by
  have hself : cosineSimilarity [(1 : ℝ)] [1] = 1 :=
    cosineSimilarity_self [1] (by norm_num [sumSqFold])
  refine ⟨⟨?_, rfl, by decide⟩, ⟨?_, rfl, by decide⟩⟩
  · simp [cacheGet, embedConst1, cacheScan, rowExpired, rowTtlOne]
  · norm_num [cacheGet, embedConst1, cacheScan, rowExpired, rowTtlZeroVec,
      hself]

/-- Claim C5 as amended: for every cache entry whose ttl is set and nonzero,
a `get` whose query embedding is available, performed at a time with
`now - timestamp` exceeding the ttl, excludes the entry from similarity
matching (the match result is computed from the non-expired rows alone, and
the entry is not among them) but does not remove it: the read leaves the
store unchanged, because the eviction DELETE binds a queryHash the SELECT
never fetched. -/
theorem cacheGet_ttl_expiry (embed : String → Option (List ℝ)) (now : Int)
    (q : String) (t : ℝ) (store : List CacheRow) (e : List ℝ) (row : CacheRow)
    (c : Int) (hemb : embed q = some e) (hrow : row ∈ store)
    (httl : row.ttl = some c) (hc : c ≠ 0)
    (hexp : now - row.timestamp > c) :
    (cacheGet embed now q t store).2 = store
  ∧ (cacheGet embed now q t store).1 =
      (cacheGet embed now q t
        (store.filter (fun r => !rowExpired now r))).1
  ∧ row ∉ store.filter (fun r => !rowExpired now r) := by
  have hdead : rowExpired now row = true := by
    simp [rowExpired, httl, hc, hexp]
  refine ⟨?_, ?_, ?_⟩
  · unfold cacheGet
    rw [hemb]
    exact cacheScan_snd e now store none t
  · unfold cacheGet
    rw [hemb]
    exact cacheScan_fst_filter e now store none t
  · intro hmem
    have := (List.mem_filter.mp hmem).2
    simp [hdead] at this

/-- Witness for the amended C5: a concrete entry with ttl 1, read at time 5,
is still in the store after the read but absent from the non-expired rows
the match is computed over. -/
theorem cacheGet_ttl_expiry_witness :
    (cacheGet embedConst1 5 "q" 0 [rowTtlOne]).2 = [rowTtlOne]
  ∧ rowTtlOne ∉ [rowTtlOne].filter (fun r => !rowExpired 5 r) := by
  have h := cacheGet_ttl_expiry embedConst1 5 "q" 0 [rowTtlOne] [1] rowTtlOne 1
    rfl (by simp) rfl (by decide) (by decide)
  exact ⟨h.1, h.2.2⟩

/-- Claim C10: every row written through `set` has a NULL ttl — the `_ttl`
argument is accepted but never bound into the insert — and consequently a
store populated only through `set` is never touched by `get`'s TTL eviction:
every read returns the store unchanged. -/
theorem cacheSet_ttl_never_bound (embed : String → Option (List ℝ))
    (hash : String → String) (now : Int) (q r : String) (ttlArg : Option Int)
    (store : List CacheRow) (hstore : ∀ row ∈ store, row.ttl = none) :
    (∀ row ∈ cacheSet embed hash now q r ttlArg store, row.ttl = none)
  ∧ (∀ (embed2 : String → Option (List ℝ)) (now2 : Int) (q2 : String)
        (t2 : ℝ),
      (cacheGet embed2 now2 q2 t2 (cacheSet embed hash now q r ttlArg store)).2
        = cacheSet embed hash now q r ttlArg store) := by
  have hall : ∀ row ∈ cacheSet embed hash now q r ttlArg store,
      row.ttl = none := by
    intro row hmem
    unfold cacheSet at hmem
    rcases List.mem_append.mp hmem with hleft | hright
    · exact hstore row (List.mem_of_mem_filter hleft)
    · simp at hright
      rw [hright]
  refine ⟨hall, ?_⟩
  intro embed2 now2 q2 t2
  unfold cacheGet
  cases embed2 q2 with
  | none => rfl
  | some e2 => exact cacheScan_snd e2 now2 _ none t2

/-- Witness for C10: a concrete `set` with an explicit ttl argument produces
a store that a later `get` leaves unchanged. -/
theorem cacheSet_ttl_never_bound_witness :
    (cacheGet embedConst1 9 "x" 0
      (cacheSet embedConst1 hashId 0 "q" "r" (some 999) [])).2 =
      cacheSet embedConst1 hashId 0 "q" "r" (some 999) [] :=
  (cacheSet_ttl_never_bound embedConst1 hashId 0 "q" "r" (some 999) []
    (by simp)).2 embedConst1 9 "x" 0

end QuestSystem
